import Mathlib

/-!
Shallow embedding of the two GRT example driver programs,
`ANBCExample.cpp` and `MultidimensionalRegressionExample.cpp`.

The external GRT library is modelled as an oracle environment supplying the
boolean result of every library call together with the data those calls hand
back; the drivers' straight-line control flow (load, guard checks, train,
save, reload, test, per-sample predict loop, result-file output) is
translated directly from the source.  Library operations whose code is not
part of the supplied source (dataset partitioning, model serialization) are
modelled from the specification and marked as such in their doc comments.
-/

/-- A labelled classification sample: a class label and a feature vector. -/
structure ClassificationSample where
  classLabel : Nat
  sample : List ℚ
deriving DecidableEq

/-- A labelled classification dataset: an ordered list of samples. -/
structure ClassificationData where
  samples : List ClassificationSample
deriving DecidableEq

/-- A regression sample: an input vector and a target vector. -/
structure RegressionSample where
  inputVector : List ℚ
  targetVector : List ℚ
deriving DecidableEq

/-- A regression dataset: samples plus cached dimensionality metadata. -/
structure RegressionData where
  samples : List RegressionSample
  numInputDimensions : Nat
  numTargetDimensions : Nat
deriving DecidableEq

/-- Modelled from the spec: `ClassificationData::partition` is not part of the
supplied source (only its call site at `ANBCExample.cpp` line 67 is); per the
spec a dataset is "split into two disjoint datasets (train/test) by a
percentage threshold".  The first `length * pct / 100` samples stay in the
training set and the remainder becomes the test set. -/
def partition (data : ClassificationData) (pct : Nat) :
    ClassificationData × ClassificationData :=
  let k := data.samples.length * pct / 100
  (⟨data.samples.take k⟩, ⟨data.samples.drop k⟩)

/-- The original-dataset indices that `partition` keeps in the training part. -/
def partitionTrainIdx (data : ClassificationData) (pct : Nat) : List Nat :=
  (List.range data.samples.length).take (data.samples.length * pct / 100)

/-- The original-dataset indices that `partition` moves to the test part. -/
def partitionTestIdx (data : ClassificationData) (pct : Nat) : List Nat :=
  (List.range data.samples.length).drop (data.samples.length * pct / 100)

/-! ### The ANBC driver (`ANBCExample.cpp`) -/

/-- The library calls made by the ANBC driver, in source order. -/
inductive ANBCCall where
  | loadTrainingData
  | train
  | saveModel
  | loadModel
  | predict (i : Nat)
deriving DecidableEq

/-- The exit points of the ANBC driver. -/
inductive ANBCExit where
  | success
  | loadTrainingFail
  | trainFail
  | saveFail
  | loadModelFail
  | predictFail
deriving DecidableEq

/-- The process exit status: EXIT_SUCCESS is 0, EXIT_FAILURE is 1. -/
def ANBCExit.code : ANBCExit → Nat
  | ANBCExit.success => 0
  | _ => 1

/-- The diagnostic the ANBC driver prints when a library call fails
(source lines 62, 73, 81, 89, 104; the typo "sampel" is in the source). -/
def anbcFailMsg : ANBCCall → String
  | ANBCCall.loadTrainingData => "Failed to load training data!\n"
  | ANBCCall.train => "Failed to train classifier!\n"
  | ANBCCall.saveModel => "Failed to save the classifier model!\n"
  | ANBCCall.loadModel => "Failed to load the classifier model!\n"
  | ANBCCall.predict i =>
      "Failed to perform prediction for test sampel: " ++ toString i ++ "\n"

/-- The per-sample line the ANBC driver prints (source line 116). -/
def testSampleMsg (i classLabel predictedClassLabel : Nat) : String :=
  "TestSample: " ++ toString i ++ " ClassLabel: " ++ toString classLabel ++
    " PredictedClassLabel: " ++ toString predictedClassLabel ++ "\n"

/-- The final accuracy line the ANBC driver prints (source line 119). -/
def accuracyMsg (numCorrect numSamples : Nat) : String :=
  "Test Accuracy: " ++ toString ((numCorrect : ℚ) / (numSamples : ℚ) * 100) ++
    "%\n"

/-- Oracle for the GRT library as used by the ANBC driver: the boolean result
of each library call and the data the library hands back.  `predictOk i` and
`predictedLabel i` describe `anbc.predict` / `anbc.getPredictedClassLabel`
for the i-th test sample. -/
structure ANBCEnv where
  loadTrainingOk : Bool
  trainingData : ClassificationData
  trainOk : Bool
  saveOk : Bool
  loadModelOk : Bool
  predictOk : Nat → Bool
  predictedLabel : Nat → Nat

/-- What the ANBC prediction loop produces: the library calls it made, the
console lines it printed, and `some count` of correct predictions when every
predict call succeeded (`none` when one failed and the loop aborted). -/
structure ANBCLoopOut where
  calls : List (ANBCCall × Bool)
  msgs : List String
  correct : Option Nat

/-- The per-sample prediction loop of the ANBC driver (source lines 94-117):
predict sample `i`; on failure print the diagnostic and return EXIT_FAILURE,
otherwise print the per-sample line, count the prediction as correct when the
true class label equals the predicted one, and continue with the next sample. -/
def anbcPredictLoop (env : ANBCEnv) : Nat → List ClassificationSample → ANBCLoopOut
  | _, [] => ⟨[], [], some 0⟩
  | i, s :: rest =>
    if env.predictOk i then
      let r := anbcPredictLoop env (i + 1) rest
      ⟨(ANBCCall.predict i, true) :: r.calls,
       testSampleMsg i s.classLabel (env.predictedLabel i) :: r.msgs,
       r.correct.map
         (fun k => (if s.classLabel = env.predictedLabel i then 1 else 0) + k)⟩
    else
      ⟨[(ANBCCall.predict i, false)], [anbcFailMsg (ANBCCall.predict i)], none⟩

/-- The observable outcome of one run of the ANBC driver. -/
structure ANBCResult where
  calls : List (ANBCCall × Bool)
  console : List String
  numCorrect : Nat
  numTestSamples : Nat
  exit : ANBCExit

/-- The ANBC driver (`ANBCExample.cpp`, `main`, lines 49-122): load the
training data, partition off 20% as test data, train, save the model, reload
it, predict every test sample and print the accuracy.  Every failed library
call prints a diagnostic and exits with EXIT_FAILURE at once. -/
def anbcRun (env : ANBCEnv) : ANBCResult :=
  if env.loadTrainingOk then
    let testData := (partition env.trainingData 80).2
    if env.trainOk then
      if env.saveOk then
        if env.loadModelOk then
          let r := anbcPredictLoop env 0 testData.samples
          match r.correct with
          | some numCorrect =>
            ⟨(ANBCCall.loadTrainingData, true) :: (ANBCCall.train, true) ::
               (ANBCCall.saveModel, true) :: (ANBCCall.loadModel, true) :: r.calls,
             r.msgs ++ [accuracyMsg numCorrect testData.samples.length],
             numCorrect, testData.samples.length, ANBCExit.success⟩
          | none =>
            ⟨(ANBCCall.loadTrainingData, true) :: (ANBCCall.train, true) ::
               (ANBCCall.saveModel, true) :: (ANBCCall.loadModel, true) :: r.calls,
             r.msgs, 0, testData.samples.length, ANBCExit.predictFail⟩
        else
          ⟨[(ANBCCall.loadTrainingData, true), (ANBCCall.train, true),
            (ANBCCall.saveModel, true), (ANBCCall.loadModel, false)],
           [anbcFailMsg ANBCCall.loadModel], 0, testData.samples.length,
           ANBCExit.loadModelFail⟩
      else
        ⟨[(ANBCCall.loadTrainingData, true), (ANBCCall.train, true),
          (ANBCCall.saveModel, false)],
         [anbcFailMsg ANBCCall.saveModel], 0, testData.samples.length,
         ANBCExit.saveFail⟩
    else
      ⟨[(ANBCCall.loadTrainingData, true), (ANBCCall.train, false)],
       [anbcFailMsg ANBCCall.train], 0, testData.samples.length,
       ANBCExit.trainFail⟩
  else
    ⟨[(ANBCCall.loadTrainingData, false)],
     [anbcFailMsg ANBCCall.loadTrainingData], 0, 0, ANBCExit.loadTrainingFail⟩

/-- The ANBC driver's `main` signature: `argc`/`argv` are received but the
body never reads them (source line 49). -/
def anbcMain (_argc : Nat) (_argv : List String) (env : ANBCEnv) : ANBCResult :=
  anbcRun env

/-! ### The regression driver (`MultidimensionalRegressionExample.cpp`) -/

/-- Tokens written to the results file by the stream inserts of the output
loop (source lines 146-152): a numeric value, a tab, or endl. -/
inductive FileTok where
  | val (q : ℚ)
  | tab
  | nl
deriving DecidableEq

/-- One inner output loop (source lines 146-148 and 149-151): each component
of the vector is written followed by a tab. -/
def tabbed (vs : List ℚ) : List FileTok :=
  vs.flatMap (fun v => [FileTok.val v, FileTok.tab])

/-- The library calls made by the regression driver, in source order. -/
inductive RegCall where
  | loadTrainingData
  | loadTestData
  | train
  | savePipeline
  | loadPipeline
  | test
  | predict (i : Nat)
deriving DecidableEq

/-- The exit points of the regression driver. -/
inductive RegExit where
  | success
  | loadTrainingFail
  | loadTestFail
  | inputDimMismatch
  | targetDimMismatch
  | trainFail
  | saveFail
  | loadFail
  | testFail
  | predictFail
deriving DecidableEq

/-- The process exit status: EXIT_SUCCESS is 0, EXIT_FAILURE is 1. -/
def RegExit.code : RegExit → Nat
  | RegExit.success => 0
  | _ => 1

/-- The diagnostic the regression driver prints when a library call fails
(source lines 63, 68, 103, 110, 115, 122, 138). -/
def regFailMsg : RegCall → String
  | RegCall.loadTrainingData => "ERROR: Failed to load training data!\n"
  | RegCall.loadTestData => "ERROR: Failed to load test data!\n"
  | RegCall.train => "ERROR: Failed to train MultidimensionalRegression model!\n"
  | RegCall.savePipeline => "ERROR: Failed to save pipeline!\n"
  | RegCall.loadPipeline => "ERROR: Failed to load pipeline!\n"
  | RegCall.test => "ERROR: Failed to test MultidimensionalRegression model!\n"
  | RegCall.predict i => "ERROR: Failed to map test sample " ++ toString i ++ "\n"

/-- The input-dimension mismatch diagnostic (source lines 74-75). -/
def inputDimMismatchMsg (trainDims testDims : Nat) : String :=
  "ERROR: The number of input dimensions in the training data (" ++
    toString trainDims ++
    ") does not match the number of input dimensions in the test data (" ++
    toString testDims ++ ")\n"

/-- The target-dimension mismatch diagnostic (source lines 80-81; note that
the source passes the test dataset's dimension count to both slots). -/
def targetDimMismatchMsg (trainDims testDims : Nat) : String :=
  "ERROR: The number of target dimensions in the training data (" ++
    toString trainDims ++
    ") does not match the number of target dimensions in the test data (" ++
    toString testDims ++ ")\n"

/-- Oracle for the GRT library as used by the regression driver. `predictOk i`
and `regressionData i` describe `pipeline.predict` / `getRegressionData` for
the i-th test sample; `trainingStats`/`testStats` are the opaque console
output of `printStats`. -/
structure RegEnv where
  loadTrainingOk : Bool
  trainingData : RegressionData
  loadTestOk : Bool
  testData : RegressionData
  trainOk : Bool
  savePipelineOk : Bool
  loadPipelineOk : Bool
  testOk : Bool
  testRMSError : ℚ
  trainingStats : List String
  testStats : List String
  predictOk : Nat → Bool
  regressionData : Nat → List ℚ

/-- What the regression output loop produces: the predict calls it made, the
console lines it printed, the file tokens it wrote, and whether every predict
call succeeded. -/
structure RegLoopOut where
  calls : List (RegCall × Bool)
  msgs : List String
  fileToks : List FileTok
  ok : Bool

/-- The per-sample output loop of the regression driver (source lines
132-153): predict sample `i`; on failure print the diagnostic and return
EXIT_FAILURE, otherwise write the mapped output vector and the target vector
to the results file, each value followed by a tab, then endl. -/
def regPredictLoop (env : RegEnv) : Nat → List RegressionSample → RegLoopOut
  | _, [] => ⟨[], [], [], true⟩
  | i, s :: rest =>
    if env.predictOk i then
      let r := regPredictLoop env (i + 1) rest
      ⟨(RegCall.predict i, true) :: r.calls, r.msgs,
       tabbed (env.regressionData i) ++ tabbed s.targetVector ++
         FileTok.nl :: r.fileToks,
       r.ok⟩
    else
      ⟨[(RegCall.predict i, false)], [regFailMsg (RegCall.predict i)], [], false⟩

/-- The console lines printed between a successful pair of dataset loads and
the train call (source lines 85-101). -/
def regStatsMsgs (env : RegEnv) : List String :=
  "Training and Test datasets loaded\n" :: "Training data stats:\n" ::
    env.trainingStats ++ "Test data stats:\n" :: env.testStats ++
    ["Training MultidimensionalRegression model...\n"]

/-- The console line printed after a successful test call (source line 126). -/
def testCompleteMsg (env : RegEnv) : String :=
  "Test complete. Test RMS error: " ++ toString env.testRMSError ++ "\n"

/-- The observable outcome of one run of the regression driver. -/
structure RegResult where
  calls : List (RegCall × Bool)
  console : List String
  file : List FileTok
  exit : RegExit

/-- The regression driver (`MultidimensionalRegressionExample.cpp`, `main`,
lines 53-159): load the training and test datasets, check the dimensionality
guards (the target-dimension guard compares the test dataset to itself,
exactly as in the source at line 79), train the pipeline, save and reload it,
test it, then predict every test sample and write the results file.  Every
failed library call prints a diagnostic and exits with EXIT_FAILURE at once. -/
def regRun (env : RegEnv) : RegResult :=
  if env.loadTrainingOk then
    if env.loadTestOk then
      if env.trainingData.numInputDimensions ≠ env.testData.numInputDimensions then
        ⟨[(RegCall.loadTrainingData, true), (RegCall.loadTestData, true)],
         [inputDimMismatchMsg env.trainingData.numInputDimensions
            env.testData.numInputDimensions],
         [], RegExit.inputDimMismatch⟩
      else
        if env.testData.numTargetDimensions ≠ env.testData.numTargetDimensions then
          ⟨[(RegCall.loadTrainingData, true), (RegCall.loadTestData, true)],
           [targetDimMismatchMsg env.testData.numTargetDimensions
              env.testData.numTargetDimensions],
           [], RegExit.targetDimMismatch⟩
        else
          if env.trainOk then
            if env.savePipelineOk then
              if env.loadPipelineOk then
                if env.testOk then
                  let r := regPredictLoop env 0 env.testData.samples
                  ⟨(RegCall.loadTrainingData, true) :: (RegCall.loadTestData, true) ::
                     (RegCall.train, true) :: (RegCall.savePipeline, true) ::
                     (RegCall.loadPipeline, true) :: (RegCall.test, true) :: r.calls,
                   regStatsMsgs env ++ "Model trained.\n" ::
                     "Testing MultidimensionalRegression model...\n" ::
                     testCompleteMsg env :: r.msgs,
                   r.fileToks,
                   if r.ok then RegExit.success else RegExit.predictFail⟩
                else
                  ⟨[(RegCall.loadTrainingData, true), (RegCall.loadTestData, true),
                    (RegCall.train, true), (RegCall.savePipeline, true),
                    (RegCall.loadPipeline, true), (RegCall.test, false)],
                   regStatsMsgs env ++ "Model trained.\n" ::
                     "Testing MultidimensionalRegression model...\n" ::
                     [regFailMsg RegCall.test],
                   [], RegExit.testFail⟩
              else
                ⟨[(RegCall.loadTrainingData, true), (RegCall.loadTestData, true),
                  (RegCall.train, true), (RegCall.savePipeline, true),
                  (RegCall.loadPipeline, false)],
                 regStatsMsgs env ++ "Model trained.\n" ::
                   [regFailMsg RegCall.loadPipeline],
                 [], RegExit.loadFail⟩
            else
              ⟨[(RegCall.loadTrainingData, true), (RegCall.loadTestData, true),
                (RegCall.train, true), (RegCall.savePipeline, false)],
               regStatsMsgs env ++ "Model trained.\n" ::
                 [regFailMsg RegCall.savePipeline],
               [], RegExit.saveFail⟩
          else
            ⟨[(RegCall.loadTrainingData, true), (RegCall.loadTestData, true),
              (RegCall.train, false)],
             regStatsMsgs env ++ [regFailMsg RegCall.train],
             [], RegExit.trainFail⟩
    else
      ⟨[(RegCall.loadTrainingData, true), (RegCall.loadTestData, false)],
       [regFailMsg RegCall.loadTestData], [], RegExit.loadTestFail⟩
  else
    ⟨[(RegCall.loadTrainingData, false)],
     [regFailMsg RegCall.loadTrainingData], [], RegExit.loadTrainingFail⟩

/-- The regression driver's `main` signature: `argc`/`argv` are received but
the body never reads them (source line 53). -/
def regMain (_argc : Nat) (_argv : List String) (env : RegEnv) : RegResult :=
  regRun env

/-- The token sequence the output loop writes for test sample `p.1` (its
mapped output vector, then its target vector, values tab-terminated), without
the endl terminator. -/
def regLineFor (env : RegEnv) (p : Nat × RegressionSample) : List FileTok :=
  tabbed (env.regressionData p.1) ++ tabbed p.2.targetVector

/-- Splits a token stream into its endl-terminated lines (line contents only,
the endl tokens removed). -/
def splitOnNl : List FileTok → List (List FileTok)
  | [] => []
  | t :: rest =>
    if t = FileTok.nl then [] :: splitOnNl rest
    else
      match splitOnNl rest with
      | [] => [[t]]
      | l :: ls => (t :: l) :: ls

/-- Checks that every value token in a stream is immediately followed by a
tab token. -/
def valsTabbedOk : List FileTok → Bool
  | [] => true
  | FileTok.val _ :: rest =>
      decide (rest.head? = some FileTok.tab) && valsTabbedOk rest
  | FileTok.tab :: rest => valsTabbedOk rest
  | FileTok.nl :: rest => valsTabbedOk rest

/-! ### Spec-modelled serialization of trained models

The GRT library's model/pipeline persistence code is not part of the supplied
source; only its call sites are (`ANBCExample.cpp` lines 78-91,
`MultidimensionalRegressionExample.cpp` lines 109-117).  The models and their
file format below are modelled from the spec. -/

/-- A token of the external file representation of a trained model. -/
inductive SerTok where
  | nat (n : Nat)
  | rat (q : ℚ)
deriving DecidableEq

/-- Modelled from the spec: the fitted state of a trained ANBC classifier
("after a successful train call, holds fitted parameters"); per trained
class, a class label and a fitted parameter vector. -/
structure ANBCModel where
  weights : List (Nat × List ℚ)
deriving DecidableEq

/-- Squared euclidean distance between two feature vectors. -/
def sqDist (a b : List ℚ) : ℚ :=
  (List.zipWith (fun x y => (x - y) * (x - y)) a b).sum

/-- Modelled from the spec: the classifier "predicting a discrete class label
from a feature vector" — the label of the fitted class whose parameter vector
is nearest to the input. -/
def anbcPredictLabel (m : ANBCModel) (x : List ℚ) : Nat :=
  match m.weights with
  | [] => 0
  | w :: ws =>
    (ws.foldl (fun best c => if sqDist c.2 x < sqDist best.2 x then c else best)
      w).1

/-- Modelled from the spec: the fitted state of the trained multidimensional
regression pipeline — one linear regression model (bias and input weights)
per target dimension. -/
structure PipelineModel where
  dims : List (ℚ × List ℚ)
deriving DecidableEq

/-- One fitted linear regression model applied to an input vector. -/
def linRegPredict (w : ℚ × List ℚ) (x : List ℚ) : ℚ :=
  w.1 + (List.zipWith (fun a b => a * b) w.2 x).sum

/-- Modelled from the spec: the regressor "predicting a continuous output
vector from a feature vector" — one linear regression output per target
dimension. -/
def pipelinePredict (p : PipelineModel) (x : List ℚ) : List ℚ :=
  p.dims.map (fun w => linRegPredict w x)

/-- Serializes a rational vector: its length, then its components. -/
def encodeRatList (l : List ℚ) : List SerTok :=
  SerTok.nat l.length :: l.map SerTok.rat

/-- Reads `n` rational tokens, returning them and the remaining stream. -/
def decodeRats : Nat → List SerTok → Option (List ℚ × List SerTok)
  | 0, ts => some ([], ts)
  | n + 1, SerTok.rat q :: ts =>
    (decodeRats n ts).map (fun p => (q :: p.1, p.2))
  | _ + 1, SerTok.nat _ :: _ => none
  | _ + 1, [] => none

/-- Serializes one fitted ANBC class: its label, then its parameter vector. -/
def encodeClass (c : Nat × List ℚ) : List SerTok :=
  SerTok.nat c.1 :: encodeRatList c.2

/-- Reads one fitted ANBC class from the stream. -/
def decodeClass : List SerTok → Option ((Nat × List ℚ) × List SerTok)
  | SerTok.nat lab :: SerTok.nat len :: ts =>
    (decodeRats len ts).map (fun p => ((lab, p.1), p.2))
  | _ => none

/-- Reads `n` fitted ANBC classes from the stream. -/
def decodeClasses : Nat → List SerTok → Option (List (Nat × List ℚ) × List SerTok)
  | 0, ts => some ([], ts)
  | n + 1, ts =>
    (decodeClass ts).bind
      (fun p => (decodeClasses n p.2).map (fun q => (p.1 :: q.1, q.2)))

/-- Modelled from the spec: `ANBC::saveModelToFile` — the file representation
of a trained ANBC model (class count, then each class). -/
def anbcSaveModelToFile (m : ANBCModel) : List SerTok :=
  SerTok.nat m.weights.length :: m.weights.flatMap encodeClass

/-- Modelled from the spec: `ANBC::loadModelFromFile` — parses the file
representation back into a trained model, failing on malformed input. -/
def anbcLoadModelFromFile : List SerTok → Option ANBCModel
  | SerTok.nat n :: ts => (decodeClasses n ts).map (fun p => ⟨p.1⟩)
  | _ => none

/-- Serializes one fitted regression dimension: its bias, then its weights. -/
def encodeDim (w : ℚ × List ℚ) : List SerTok :=
  SerTok.rat w.1 :: encodeRatList w.2

/-- Reads one fitted regression dimension from the stream. -/
def decodeDim : List SerTok → Option ((ℚ × List ℚ) × List SerTok)
  | SerTok.rat b :: SerTok.nat len :: ts =>
    (decodeRats len ts).map (fun p => ((b, p.1), p.2))
  | _ => none

/-- Reads `n` fitted regression dimensions from the stream. -/
def decodeDims : Nat → List SerTok → Option (List (ℚ × List ℚ) × List SerTok)
  | 0, ts => some ([], ts)
  | n + 1, ts =>
    (decodeDim ts).bind
      (fun p => (decodeDims n p.2).map (fun q => (p.1 :: q.1, q.2)))

/-- Modelled from the spec: `GestureRecognitionPipeline::savePipelineToFile`
— the file representation of the trained pipeline (dimension count, then each
fitted regression model). -/
def savePipelineToFile (p : PipelineModel) : List SerTok :=
  SerTok.nat p.dims.length :: p.dims.flatMap encodeDim

/-- Modelled from the spec: `GestureRecognitionPipeline::loadPipelineFromFile`
— parses the file representation back into a trained pipeline. -/
def loadPipelineFromFile : List SerTok → Option PipelineModel
  | SerTok.nat n :: ts => (decodeDims n ts).map (fun p => ⟨p.1⟩)
  | _ => none

/-- Recognizes the per-sample predict calls among a driver's library calls. -/
def ANBCCall.isPredict : ANBCCall → Bool
  | ANBCCall.predict _ => true
  | _ => false

/-- A library oracle for the regression driver in which both datasets load
successfully with equal input-dimension counts (2 and 2) but different
target-dimension counts (3 in the training data, 2 in the test data), and
every library call succeeds. -/
def c1Env : RegEnv :=
  ⟨true, ⟨[⟨[0, 0], [0, 0, 0]⟩], 2, 3⟩, true, ⟨[⟨[0, 0], [0, 0]⟩], 2, 2⟩,
   true, true, true, true, 0, [], [], fun _ => true, fun _ => [0, 0]⟩

/-- An ANBC library oracle in which the train call fails. -/
def envTrainFailA : ANBCEnv :=
  ⟨true, ⟨[]⟩, false, true, true, fun _ => true, fun _ => 0⟩

/-- A regression library oracle in which the train call fails. -/
def envTrainFailR : RegEnv :=
  ⟨true, ⟨[], 2, 3⟩, true, ⟨[], 2, 3⟩, false, true, true, true, 0, [], [],
   fun _ => true, fun _ => []⟩

/-- An ANBC library oracle with one training sample (so the 80% partition
yields an empty training part and a one-sample test part) in which every
library call succeeds and the prediction matches the true label. -/
def envANBCOneSample : ANBCEnv :=
  ⟨true, ⟨[⟨7, [1]⟩]⟩, true, true, true, fun _ => true, fun _ => 7⟩

/-- An ANBC library oracle with an empty training dataset (so the partition
yields an empty test part) in which every library call succeeds. -/
def envANBCEmpty : ANBCEnv :=
  ⟨true, ⟨[]⟩, true, true, true, fun _ => true, fun _ => 0⟩

/-- A regression library oracle with one test sample whose target vector is
`[1]` and whose mapped output vector is `[2]`, every library call
succeeding. -/
def envRegOneSample : RegEnv :=
  ⟨true, ⟨[], 2, 3⟩, true, ⟨[⟨[3, 4], [1]⟩], 2, 3⟩, true, true, true, true,
   0, [], [], fun _ => true, fun _ => [2]⟩

/-! ### General list helpers -/

theorem mem_of_getLast?_eq {α : Type} {l : List α} {a : α}
    (h : l.getLast? = some a) : a ∈ l := by
  induction l with
  | nil => simp at h
  | cons x t ih =>
    cases t with
    | nil => simp_all
    | cons y u =>
      rw [List.getLast?_cons_cons] at h
      exact List.mem_cons_of_mem x (ih h)

theorem dropLast_cons_of_ne_nil {α : Type} (a : α) {l : List α} (h : l ≠ []) :
    (a :: l).dropLast = a :: l.dropLast := by
  cases l with
  | nil => exact absurd rfl h
  | cons b t => rfl

theorem getLast?_cons_of_ne_nil {α : Type} (a : α) {l : List α} (h : l ≠ []) :
    (a :: l).getLast? = l.getLast? := by
  cases l with
  | nil => exact absurd rfl h
  | cons b t => exact List.getLast?_cons_cons

theorem dropLast_all_cons_true {α : Type} (a : α × Bool) (ha : a.2 = true)
    {l : List (α × Bool)} (hl : l.dropLast.all (fun c => c.2) = true) :
    (a :: l).dropLast.all (fun c => c.2) = true := by
  cases l with
  | nil => rfl
  | cons b t =>
    have : (a :: b :: t).dropLast = a :: (b :: t).dropLast := rfl
    rw [this, List.all_cons, ha, Bool.true_and]
    exact hl

/-! ### Results-file token lemmas -/

theorem nl_not_mem_tabbed (vs : List ℚ) : FileTok.nl ∉ tabbed vs := by
  simp [tabbed, List.mem_flatMap]

theorem tabbed_eq_nil_iff (vs : List ℚ) : tabbed vs = [] ↔ vs = [] := by
  cases vs <;> simp [tabbed]

theorem nl_not_mem_regLineFor (env : RegEnv) (p : Nat × RegressionSample) :
    FileTok.nl ∉ regLineFor env p := by
  simp only [regLineFor, List.mem_append]
  rintro (h | h) <;> exact nl_not_mem_tabbed _ h

theorem tabbed_getLast? (vs : List ℚ) (h : vs ≠ []) :
    (tabbed vs).getLast? = some FileTok.tab := by
  induction vs with
  | nil => exact absurd rfl h
  | cons v t ih =>
    cases t with
    | nil => rfl
    | cons w u =>
      have hne : tabbed (w :: u) ≠ [] := by
        simp [tabbed_eq_nil_iff]
      have : tabbed (v :: w :: u)
          = [FileTok.val v, FileTok.tab] ++ tabbed (w :: u) := by
        simp [tabbed]
      rw [this, List.getLast?_append_of_ne_nil _ hne]
      exact ih (by simp)

theorem regLineFor_getLast? (env : RegEnv) (p : Nat × RegressionSample)
    (h : regLineFor env p ≠ []) :
    (regLineFor env p).getLast? = some FileTok.tab := by
  by_cases ht : p.2.targetVector = []
  · have : regLineFor env p = tabbed (env.regressionData p.1) := by
      simp [regLineFor, ht, tabbed]
    rw [this] at h ⊢
    exact tabbed_getLast? _ (by rw [Ne, tabbed_eq_nil_iff] at h; exact h)
  · have hne : tabbed p.2.targetVector ≠ [] := by
      rw [Ne, tabbed_eq_nil_iff]; exact ht
    rw [regLineFor, List.getLast?_append_of_ne_nil _ hne]
    exact tabbed_getLast? _ ht

theorem splitOnNl_line_append (l rest : List FileTok) (h : FileTok.nl ∉ l) :
    splitOnNl (l ++ FileTok.nl :: rest) = l :: splitOnNl rest := by
  induction l with
  | nil => simp [splitOnNl]
  | cons t ts ih =>
    have ht : ¬t = FileTok.nl := fun e => h (e ▸ List.mem_cons_self t ts)
    have hts : FileTok.nl ∉ ts := fun m => h (List.mem_cons_of_mem _ m)
    rw [List.cons_append, splitOnNl, if_neg ht, ih hts]

theorem splitOnNl_lines (env : RegEnv) (ps : List (Nat × RegressionSample)) :
    splitOnNl (ps.flatMap (fun p => regLineFor env p ++ [FileTok.nl]))
      = ps.map (regLineFor env) := by
  induction ps with
  | nil => rfl
  | cons p t ih =>
    rw [List.flatMap_cons, List.append_assoc, List.singleton_append,
      splitOnNl_line_append _ _ (nl_not_mem_regLineFor env p), ih, List.map_cons]

theorem valsTabbedOk_tabbed_append (vs : List ℚ) (rest : List FileTok)
    (h : valsTabbedOk rest = true) : valsTabbedOk (tabbed vs ++ rest) = true := by
  induction vs with
  | nil => simpa [tabbed]
  | cons v t ih =>
    have he : tabbed (v :: t) ++ rest
        = FileTok.val v :: FileTok.tab :: (tabbed t ++ rest) := by
      simp [tabbed]
    rw [he, valsTabbedOk, valsTabbedOk]
    simp [ih]

theorem valsTabbedOk_spec {l : List FileTok} (h : valsTabbedOk l = true) :
    ∀ pre v post, l = pre ++ FileTok.val v :: post →
      post.head? = some FileTok.tab := by
  induction l with
  | nil =>
    intro pre v post he
    exact absurd he.symm (List.append_ne_nil_of_right_ne_nil pre (by simp))
  | cons t ts ih =>
    intro pre v post he
    cases pre with
    | nil =>
      simp only [List.nil_append, List.cons.injEq] at he
      obtain ⟨rfl, rfl⟩ := he
      rw [valsTabbedOk, Bool.and_eq_true, decide_eq_true_eq] at h
      exact h.1
    | cons q qs =>
      simp only [List.cons_append, List.cons.injEq] at he
      obtain ⟨rfl, rfl⟩ := he
      have hts : valsTabbedOk (qs ++ FileTok.val v :: post) = true := by
        cases t with
        | tab => rwa [valsTabbedOk] at h
        | nl => rwa [valsTabbedOk] at h
        | val q0 =>
          rw [valsTabbedOk, Bool.and_eq_true] at h
          exact h.2
      exact ih hts qs v post rfl

/-! ### Serialization round-trip lemmas -/

theorem decodeRats_encode (l : List ℚ) (rest : List SerTok) :
    decodeRats l.length (l.map SerTok.rat ++ rest) = some (l, rest) := by
  induction l with
  | nil => rfl
  | cons q t ih => simp [decodeRats, ih]

theorem decodeClass_encode (c : Nat × List ℚ) (rest : List SerTok) :
    decodeClass (encodeClass c ++ rest) = some (c, rest) := by
  obtain ⟨lab, ps⟩ := c
  simp [encodeClass, encodeRatList, decodeClass, decodeRats_encode]

theorem decodeClasses_encode (l : List (Nat × List ℚ)) (rest : List SerTok) :
    decodeClasses l.length (l.flatMap encodeClass ++ rest) = some (l, rest) := by
  induction l with
  | nil => rfl
  | cons c t ih =>
    simp [decodeClasses, List.flatMap_cons, List.append_assoc,
      decodeClass_encode, ih]

theorem anbcLoad_save (m : ANBCModel) :
    anbcLoadModelFromFile (anbcSaveModelToFile m) = some m := by
  have h := decodeClasses_encode m.weights []
  rw [List.append_nil] at h
  simp [anbcSaveModelToFile, anbcLoadModelFromFile, h]

theorem decodeDim_encode (w : ℚ × List ℚ) (rest : List SerTok) :
    decodeDim (encodeDim w ++ rest) = some (w, rest) := by
  obtain ⟨b, ws⟩ := w
  simp [encodeDim, encodeRatList, decodeDim, decodeRats_encode]

theorem decodeDims_encode (l : List (ℚ × List ℚ)) (rest : List SerTok) :
    decodeDims l.length (l.flatMap encodeDim ++ rest) = some (l, rest) := by
  induction l with
  | nil => rfl
  | cons w t ih =>
    simp [decodeDims, List.flatMap_cons, List.append_assoc, decodeDim_encode, ih]

theorem pipelineLoad_save (p : PipelineModel) :
    loadPipelineFromFile (savePipelineToFile p) = some p := by
  have h := decodeDims_encode p.dims []
  rw [List.append_nil] at h
  simp [savePipelineToFile, loadPipelineFromFile, h]

/-! ### ANBC prediction-loop lemmas -/

theorem anbcLoop_all_ok (env : ANBCEnv) (ss : List ClassificationSample) :
    ∀ i k, (anbcPredictLoop env i ss).correct = some k →
      (anbcPredictLoop env i ss).calls.all (fun c => c.2) = true := by
  induction ss with
  | nil => intro i k _; rfl
  | cons s rest ih =>
    intro i k h
    cases hp : env.predictOk i with
    | false => simp [anbcPredictLoop, hp] at h
    | true =>
      simp only [anbcPredictLoop, hp, if_true] at h ⊢
      rw [Option.map_eq_some'] at h
      obtain ⟨k', hk', _⟩ := h
      simp [List.all_cons, ih (i + 1) k' hk']

theorem anbcLoop_fail (env : ANBCEnv) (ss : List ClassificationSample) :
    ∀ i, (anbcPredictLoop env i ss).correct = none →
      ∃ j, (anbcPredictLoop env i ss).calls.getLast?
              = some (ANBCCall.predict j, false)
        ∧ (anbcPredictLoop env i ss).msgs.getLast?
              = some (anbcFailMsg (ANBCCall.predict j))
        ∧ (anbcPredictLoop env i ss).calls.dropLast.all (fun c => c.2) = true := by
  induction ss with
  | nil => intro i h; simp [anbcPredictLoop] at h
  | cons s rest ih =>
    intro i h
    cases hp : env.predictOk i with
    | false =>
      refine ⟨i, ?_, ?_, ?_⟩
      all_goals simp [anbcPredictLoop, hp]
    | true =>
      simp only [anbcPredictLoop, hp, if_true] at h ⊢
      rw [Option.map_eq_none'] at h
      obtain ⟨j, h1, h2, h3⟩ := ih (i + 1) h
      have hne : (anbcPredictLoop env (i + 1) rest).calls ≠ [] := by
        intro hnil; rw [hnil] at h1; simp at h1
      have hne2 : (anbcPredictLoop env (i + 1) rest).msgs ≠ [] := by
        intro hnil; rw [hnil] at h2; simp at h2
      refine ⟨j, ?_, ?_, ?_⟩
      · rw [getLast?_cons_of_ne_nil _ hne]; exact h1
      · rw [getLast?_cons_of_ne_nil _ hne2]; exact h2
      · exact dropLast_all_cons_true _ rfl h3

theorem anbcLoop_count (env : ANBCEnv) (ss : List ClassificationSample) :
    ∀ i k, (anbcPredictLoop env i ss).correct = some k →
      k = (List.enumFrom i ss).countP
            (fun p => decide (p.2.classLabel = env.predictedLabel p.1)) := by
  induction ss with
  | nil =>
    intro i k h
    simp only [anbcPredictLoop] at h
    simp only [Option.some.injEq] at h
    simp [← h]
  | cons s rest ih =>
    intro i k h
    cases hp : env.predictOk i with
    | false => simp [anbcPredictLoop, hp] at h
    | true =>
      simp only [anbcPredictLoop, hp, if_true] at h
      rw [Option.map_eq_some'] at h
      obtain ⟨k', hk', hk⟩ := h
      subst hk
      have he : List.enumFrom i (s :: rest)
          = (i, s) :: List.enumFrom (i + 1) rest := rfl
      rw [he, List.countP_cons, ← ih (i + 1) k' hk']
      by_cases hc : s.classLabel = env.predictedLabel i
      all_goals simp [hc]
      all_goals omega

/-! ### Regression output-loop lemmas -/

theorem regLoop_all_ok (env : RegEnv) (ss : List RegressionSample) :
    ∀ i, (regPredictLoop env i ss).ok = true →
      (regPredictLoop env i ss).calls.all (fun c => c.2) = true := by
  induction ss with
  | nil => intro i _; rfl
  | cons s rest ih =>
    intro i h
    cases hp : env.predictOk i with
    | false => simp [regPredictLoop, hp] at h
    | true =>
      simp only [regPredictLoop, hp, if_true] at h ⊢
      simp [List.all_cons, ih (i + 1) h]

theorem regLoop_fail (env : RegEnv) (ss : List RegressionSample) :
    ∀ i, (regPredictLoop env i ss).ok = false →
      ∃ j, (regPredictLoop env i ss).calls.getLast?
              = some (RegCall.predict j, false)
        ∧ (regPredictLoop env i ss).msgs.getLast?
              = some (regFailMsg (RegCall.predict j))
        ∧ (regPredictLoop env i ss).calls.dropLast.all (fun c => c.2) = true := by
  induction ss with
  | nil => intro i h; simp [regPredictLoop] at h
  | cons s rest ih =>
    intro i h
    cases hp : env.predictOk i with
    | false =>
      refine ⟨i, ?_, ?_, ?_⟩
      all_goals simp [regPredictLoop, hp]
    | true =>
      simp only [regPredictLoop, hp, if_true] at h ⊢
      obtain ⟨j, h1, h2, h3⟩ := ih (i + 1) h
      have hne : (regPredictLoop env (i + 1) rest).calls ≠ [] := by
        intro hnil; rw [hnil] at h1; simp at h1
      refine ⟨j, ?_, ?_, ?_⟩
      · rw [getLast?_cons_of_ne_nil _ hne]; exact h1
      · exact h2
      · exact dropLast_all_cons_true _ rfl h3

theorem regLoop_msgs_ok (env : RegEnv) (ss : List RegressionSample) :
    ∀ i, (regPredictLoop env i ss).ok = true →
      (regPredictLoop env i ss).msgs = [] := by
  induction ss with
  | nil => intro i _; rfl
  | cons s rest ih =>
    intro i h
    cases hp : env.predictOk i with
    | false => simp [regPredictLoop, hp] at h
    | true =>
      simp only [regPredictLoop, hp, if_true] at h ⊢
      exact ih (i + 1) h

theorem regLoop_file_ok (env : RegEnv) (ss : List RegressionSample) :
    ∀ i, (regPredictLoop env i ss).ok = true →
      (regPredictLoop env i ss).fileToks
        = (List.enumFrom i ss).flatMap
            (fun p => regLineFor env p ++ [FileTok.nl]) := by
  induction ss with
  | nil => intro i _; rfl
  | cons s rest ih =>
    intro i h
    cases hp : env.predictOk i with
    | false => simp [regPredictLoop, hp] at h
    | true =>
      simp only [regPredictLoop, hp, if_true] at h ⊢
      have he : List.enumFrom i (s :: rest)
          = (i, s) :: List.enumFrom (i + 1) rest := rfl
      rw [he, List.flatMap_cons, ← ih (i + 1) h, regLineFor,
        List.append_assoc, List.append_assoc, List.singleton_append]
      simp

theorem regLoop_file_tabbed (env : RegEnv) (ss : List RegressionSample) :
    ∀ i, valsTabbedOk (regPredictLoop env i ss).fileToks = true := by
  induction ss with
  | nil => intro i; rfl
  | cons s rest ih =>
    intro i
    cases hp : env.predictOk i with
    | false => simp [regPredictLoop, hp, valsTabbedOk]
    | true =>
      simp only [regPredictLoop, hp, if_true]
      rw [List.append_assoc]
      refine valsTabbedOk_tabbed_append _ _ ?_
      refine valsTabbedOk_tabbed_append _ _ ?_
      rw [valsTabbedOk]
      exact ih (i + 1)

theorem regLoop_lines_tab (env : RegEnv) (ss : List RegressionSample) :
    ∀ i, ∀ l ∈ splitOnNl (regPredictLoop env i ss).fileToks,
      l ≠ [] → l.getLast? = some FileTok.tab := by
  induction ss with
  | nil => intro i l hl; simp [regPredictLoop, splitOnNl] at hl
  | cons s rest ih =>
    intro i l hl hne
    cases hp : env.predictOk i with
    | false => simp [regPredictLoop, hp, splitOnNl] at hl
    | true =>
      simp only [regPredictLoop, hp, if_true] at hl
      rw [List.append_assoc] at hl
      have : tabbed (env.regressionData i) ++
          (tabbed s.targetVector ++ FileTok.nl :: (regPredictLoop env (i + 1) rest).fileToks)
          = regLineFor env (i, s) ++
            FileTok.nl :: (regPredictLoop env (i + 1) rest).fileToks := by
        rw [regLineFor, List.append_assoc]
      rw [this, splitOnNl_line_append _ _ (nl_not_mem_regLineFor env (i, s))] at hl
      rcases List.mem_cons.mp hl with h | h
      · subst h; exact regLineFor_getLast? env (i, s) hne
      · exact ih (i + 1) l h hne

/-! ### Driver-level fail-fast lemmas -/

theorem all_dropLast {α : Type} {l : List (α × Bool)}
    (h : l.all (fun c => c.2) = true) :
    l.dropLast.all (fun c => c.2) = true := by
  rw [List.all_eq_true] at *
  intro x hx
  exact h x ((List.dropLast_sublist l).subset hx)

theorem anbcRun_failfast (env : ANBCEnv) :
    (anbcRun env).calls.dropLast.all (fun c => c.2) = true
    ∧ (∀ c, (anbcRun env).calls.getLast? = some (c, false) →
        (anbcRun env).exit.code = 1
        ∧ (anbcRun env).console.getLast? = some (anbcFailMsg c))
    ∧ ((anbcRun env).exit.code = 0 →
        (anbcRun env).calls.all (fun c => c.2) = true) := by
  cases hl : env.loadTrainingOk with
  | false =>
    have hrun : anbcRun env
        = ⟨[(ANBCCall.loadTrainingData, false)],
           [anbcFailMsg ANBCCall.loadTrainingData], 0, 0,
           ANBCExit.loadTrainingFail⟩ := by
      simp [anbcRun, hl]
    rw [hrun]
    refine ⟨rfl, ?_, by intro h0; simp [ANBCExit.code] at h0⟩
    intro c hc
    simp only [List.getLast?_singleton, Option.some.injEq, Prod.mk.injEq,
      and_true] at hc
    subst hc
    exact ⟨rfl, rfl⟩
  | true =>
    cases ht : env.trainOk with
    | false =>
      have hrun : anbcRun env
          = ⟨[(ANBCCall.loadTrainingData, true), (ANBCCall.train, false)],
             [anbcFailMsg ANBCCall.train], 0,
             (partition env.trainingData 80).2.samples.length,
             ANBCExit.trainFail⟩ := by
        simp [anbcRun, hl, ht]
      rw [hrun]
      refine ⟨rfl, ?_, by intro h0; simp [ANBCExit.code] at h0⟩
      intro c hc
      simp only [List.getLast?_cons_cons, List.getLast?_singleton,
        Option.some.injEq, Prod.mk.injEq, and_true] at hc
      subst hc
      exact ⟨rfl, rfl⟩
    | true =>
      cases hsv : env.saveOk with
      | false =>
        have hrun : anbcRun env
            = ⟨[(ANBCCall.loadTrainingData, true), (ANBCCall.train, true),
                (ANBCCall.saveModel, false)],
               [anbcFailMsg ANBCCall.saveModel], 0,
               (partition env.trainingData 80).2.samples.length,
               ANBCExit.saveFail⟩ := by
          simp [anbcRun, hl, ht, hsv]
        rw [hrun]
        refine ⟨rfl, ?_, by intro h0; simp [ANBCExit.code] at h0⟩
        intro c hc
        simp only [List.getLast?_cons_cons, List.getLast?_singleton,
          Option.some.injEq, Prod.mk.injEq, and_true] at hc
        subst hc
        exact ⟨rfl, rfl⟩
      | true =>
        cases hm : env.loadModelOk with
        | false =>
          have hrun : anbcRun env
              = ⟨[(ANBCCall.loadTrainingData, true), (ANBCCall.train, true),
                  (ANBCCall.saveModel, true), (ANBCCall.loadModel, false)],
                 [anbcFailMsg ANBCCall.loadModel], 0,
                 (partition env.trainingData 80).2.samples.length,
                 ANBCExit.loadModelFail⟩ := by
            simp [anbcRun, hl, ht, hsv, hm]
          rw [hrun]
          refine ⟨rfl, ?_, by intro h0; simp [ANBCExit.code] at h0⟩
          intro c hc
          simp only [List.getLast?_cons_cons, List.getLast?_singleton,
            Option.some.injEq, Prod.mk.injEq, and_true] at hc
          subst hc
          exact ⟨rfl, rfl⟩
        | true =>
          cases hc : (anbcPredictLoop env 0
              (partition env.trainingData 80).2.samples).correct with
          | some k =>
            have hall := anbcLoop_all_ok env
              (partition env.trainingData 80).2.samples 0 k hc
            have hrun : anbcRun env
                = ⟨(ANBCCall.loadTrainingData, true) :: (ANBCCall.train, true) ::
                     (ANBCCall.saveModel, true) :: (ANBCCall.loadModel, true) ::
                     (anbcPredictLoop env 0
                       (partition env.trainingData 80).2.samples).calls,
                   (anbcPredictLoop env 0
                       (partition env.trainingData 80).2.samples).msgs ++
                     [accuracyMsg k (partition env.trainingData 80).2.samples.length],
                   k, (partition env.trainingData 80).2.samples.length,
                   ANBCExit.success⟩ := by
              simp [anbcRun, hl, ht, hsv, hm, hc]
            rw [hrun]
            have hall4 : ((ANBCCall.loadTrainingData, true) :: (ANBCCall.train, true) ::
                (ANBCCall.saveModel, true) :: (ANBCCall.loadModel, true) ::
                (anbcPredictLoop env 0
                  (partition env.trainingData 80).2.samples).calls).all
                  (fun c => c.2) = true := by
              simp only [List.all_cons, hall]; rfl
            refine ⟨all_dropLast hall4, ?_, fun _ => hall4⟩
            intro c hcl
            have hmem := mem_of_getLast?_eq hcl
            rw [List.all_eq_true] at hall4
            have := hall4 _ hmem
            simp at this
          | none =>
            obtain ⟨j, h1, h2, h3⟩ := anbcLoop_fail env
              (partition env.trainingData 80).2.samples 0 hc
            have hne : (anbcPredictLoop env 0
                (partition env.trainingData 80).2.samples).calls ≠ [] := by
              intro hnil; rw [hnil] at h1; simp at h1
            have hne2 : (anbcPredictLoop env 0
                (partition env.trainingData 80).2.samples).msgs ≠ [] := by
              intro hnil; rw [hnil] at h2; simp at h2
            have hrun : anbcRun env
                = ⟨(ANBCCall.loadTrainingData, true) :: (ANBCCall.train, true) ::
                     (ANBCCall.saveModel, true) :: (ANBCCall.loadModel, true) ::
                     (anbcPredictLoop env 0
                       (partition env.trainingData 80).2.samples).calls,
                   (anbcPredictLoop env 0
                       (partition env.trainingData 80).2.samples).msgs,
                   0, (partition env.trainingData 80).2.samples.length,
                   ANBCExit.predictFail⟩ := by
              simp [anbcRun, hl, ht, hsv, hm, hc]
            rw [hrun]
            refine ⟨?_, ?_, ?_⟩
            · exact dropLast_all_cons_true _ rfl (dropLast_all_cons_true _ rfl
                (dropLast_all_cons_true _ rfl (dropLast_all_cons_true _ rfl h3)))
            · intro c hcl
              rw [getLast?_cons_of_ne_nil _ (List.cons_ne_nil _ _),
                getLast?_cons_of_ne_nil _ (List.cons_ne_nil _ _),
                getLast?_cons_of_ne_nil _ (List.cons_ne_nil _ _),
                getLast?_cons_of_ne_nil _ hne, h1] at hcl
              simp only [Option.some.injEq, Prod.mk.injEq, and_true] at hcl
              subst hcl
              exact ⟨rfl, h2⟩
            · intro hcode
              simp [ANBCExit.code] at hcode

theorem regRun_failfast (env : RegEnv) :
    (regRun env).calls.dropLast.all (fun c => c.2) = true
    ∧ (∀ c, (regRun env).calls.getLast? = some (c, false) →
        (regRun env).exit.code = 1
        ∧ (regRun env).console.getLast? = some (regFailMsg c))
    ∧ ((regRun env).exit.code = 0 →
        (regRun env).calls.all (fun c => c.2) = true) := by
  cases hl : env.loadTrainingOk with
  | false =>
    have hrun : regRun env
        = ⟨[(RegCall.loadTrainingData, false)],
           [regFailMsg RegCall.loadTrainingData], [],
           RegExit.loadTrainingFail⟩ := by
      simp [regRun, hl]
    rw [hrun]
    refine ⟨rfl, ?_, by intro h0; simp [RegExit.code] at h0⟩
    intro c hc
    simp only [List.getLast?_singleton, Option.some.injEq, Prod.mk.injEq,
      and_true] at hc
    subst hc
    exact ⟨rfl, rfl⟩
  | true =>
    cases hlt : env.loadTestOk with
    | false =>
      have hrun : regRun env
          = ⟨[(RegCall.loadTrainingData, true), (RegCall.loadTestData, false)],
             [regFailMsg RegCall.loadTestData], [], RegExit.loadTestFail⟩ := by
        simp [regRun, hl, hlt]
      rw [hrun]
      refine ⟨rfl, ?_, by intro h0; simp [RegExit.code] at h0⟩
      intro c hc
      simp only [List.getLast?_cons_cons, List.getLast?_singleton,
        Option.some.injEq, Prod.mk.injEq, and_true] at hc
      subst hc
      exact ⟨rfl, rfl⟩
    | true =>
      by_cases hg : env.trainingData.numInputDimensions
          = env.testData.numInputDimensions
      · cases htr : env.trainOk with
        | false =>
          have hrun : regRun env
              = ⟨[(RegCall.loadTrainingData, true), (RegCall.loadTestData, true),
                  (RegCall.train, false)],
                 regStatsMsgs env ++ [regFailMsg RegCall.train], [],
                 RegExit.trainFail⟩ := by
            simp [regRun, hl, hlt, hg, htr]
          rw [hrun]
          refine ⟨rfl, ?_, by intro h0; simp [RegExit.code] at h0⟩
          intro c hc
          simp only [List.getLast?_cons_cons, List.getLast?_singleton,
            Option.some.injEq, Prod.mk.injEq, and_true] at hc
          subst hc
          exact ⟨rfl, List.getLast?_concat _⟩
        | true =>
          cases hsv : env.savePipelineOk with
          | false =>
            have hrun : regRun env
                = ⟨[(RegCall.loadTrainingData, true), (RegCall.loadTestData, true),
                    (RegCall.train, true), (RegCall.savePipeline, false)],
                   regStatsMsgs env ++ "Model trained.\n" ::
                     [regFailMsg RegCall.savePipeline], [],
                   RegExit.saveFail⟩ := by
              simp [regRun, hl, hlt, hg, htr, hsv]
            rw [hrun]
            refine ⟨rfl, ?_, by intro h0; simp [RegExit.code] at h0⟩
            intro c hc
            simp only [List.getLast?_cons_cons, List.getLast?_singleton,
              Option.some.injEq, Prod.mk.injEq, and_true] at hc
            subst hc
            refine ⟨rfl, ?_⟩
            rw [List.getLast?_append_of_ne_nil _ (List.cons_ne_nil _ _)]
            exact List.getLast?_cons_cons
          | true =>
            cases hlp : env.loadPipelineOk with
            | false =>
              have hrun : regRun env
                  = ⟨[(RegCall.loadTrainingData, true), (RegCall.loadTestData, true),
                      (RegCall.train, true), (RegCall.savePipeline, true),
                      (RegCall.loadPipeline, false)],
                     regStatsMsgs env ++ "Model trained.\n" ::
                       [regFailMsg RegCall.loadPipeline], [],
                     RegExit.loadFail⟩ := by
                simp [regRun, hl, hlt, hg, htr, hsv, hlp]
              rw [hrun]
              refine ⟨rfl, ?_, by intro h0; simp [RegExit.code] at h0⟩
              intro c hc
              simp only [List.getLast?_cons_cons, List.getLast?_singleton,
                Option.some.injEq, Prod.mk.injEq, and_true] at hc
              subst hc
              refine ⟨rfl, ?_⟩
              rw [List.getLast?_append_of_ne_nil _ (List.cons_ne_nil _ _)]
              exact List.getLast?_cons_cons
            | true =>
              cases hte : env.testOk with
              | false =>
                have hrun : regRun env
                    = ⟨[(RegCall.loadTrainingData, true), (RegCall.loadTestData, true),
                        (RegCall.train, true), (RegCall.savePipeline, true),
                        (RegCall.loadPipeline, true), (RegCall.test, false)],
                       regStatsMsgs env ++ "Model trained.\n" ::
                         "Testing MultidimensionalRegression model...\n" ::
                         [regFailMsg RegCall.test], [],
                       RegExit.testFail⟩ := by
                  simp [regRun, hl, hlt, hg, htr, hsv, hlp, hte]
                rw [hrun]
                refine ⟨rfl, ?_, by intro h0; simp [RegExit.code] at h0⟩
                intro c hc
                simp only [List.getLast?_cons_cons, List.getLast?_singleton,
                  Option.some.injEq, Prod.mk.injEq, and_true] at hc
                subst hc
                refine ⟨rfl, ?_⟩
                rw [List.getLast?_append_of_ne_nil _ (List.cons_ne_nil _ _)]
                rw [List.getLast?_cons_cons]
                exact List.getLast?_cons_cons
              | true =>
                cases hro : (regPredictLoop env 0 env.testData.samples).ok with
                | true =>
                  have hall := regLoop_all_ok env env.testData.samples 0 hro
                  have hrun : regRun env
                      = ⟨(RegCall.loadTrainingData, true) :: (RegCall.loadTestData, true) ::
                           (RegCall.train, true) :: (RegCall.savePipeline, true) ::
                           (RegCall.loadPipeline, true) :: (RegCall.test, true) ::
                           (regPredictLoop env 0 env.testData.samples).calls,
                         regStatsMsgs env ++ "Model trained.\n" ::
                           "Testing MultidimensionalRegression model...\n" ::
                           testCompleteMsg env ::
                           (regPredictLoop env 0 env.testData.samples).msgs,
                         (regPredictLoop env 0 env.testData.samples).fileToks,
                         RegExit.success⟩ := by
                    simp [regRun, hl, hlt, hg, htr, hsv, hlp, hte, hro]
                  rw [hrun]
                  have hall6 : ((RegCall.loadTrainingData, true) :: (RegCall.loadTestData, true) ::
                      (RegCall.train, true) :: (RegCall.savePipeline, true) ::
                      (RegCall.loadPipeline, true) :: (RegCall.test, true) ::
                      (regPredictLoop env 0 env.testData.samples).calls).all
                        (fun c => c.2) = true := by
                    simp only [List.all_cons, hall]; rfl
                  refine ⟨all_dropLast hall6, ?_, fun _ => hall6⟩
                  intro c hcl
                  have hmem := mem_of_getLast?_eq hcl
                  rw [List.all_eq_true] at hall6
                  have := hall6 _ hmem
                  simp at this
                | false =>
                  obtain ⟨j, h1, h2, h3⟩ := regLoop_fail env env.testData.samples 0 hro
                  have hne : (regPredictLoop env 0 env.testData.samples).calls ≠ [] := by
                    intro hnil; rw [hnil] at h1; simp at h1
                  have hne2 : (regPredictLoop env 0 env.testData.samples).msgs ≠ [] := by
                    intro hnil; rw [hnil] at h2; simp at h2
                  have hrun : regRun env
                      = ⟨(RegCall.loadTrainingData, true) :: (RegCall.loadTestData, true) ::
                           (RegCall.train, true) :: (RegCall.savePipeline, true) ::
                           (RegCall.loadPipeline, true) :: (RegCall.test, true) ::
                           (regPredictLoop env 0 env.testData.samples).calls,
                         regStatsMsgs env ++ "Model trained.\n" ::
                           "Testing MultidimensionalRegression model...\n" ::
                           testCompleteMsg env ::
                           (regPredictLoop env 0 env.testData.samples).msgs,
                         (regPredictLoop env 0 env.testData.samples).fileToks,
                         RegExit.predictFail⟩ := by
                    simp [regRun, hl, hlt, hg, htr, hsv, hlp, hte, hro]
                  rw [hrun]
                  refine ⟨?_, ?_, ?_⟩
                  · exact dropLast_all_cons_true _ rfl (dropLast_all_cons_true _ rfl
                      (dropLast_all_cons_true _ rfl (dropLast_all_cons_true _ rfl
                        (dropLast_all_cons_true _ rfl (dropLast_all_cons_true _ rfl h3)))))
                  · intro c hcl
                    rw [getLast?_cons_of_ne_nil _ (List.cons_ne_nil _ _),
                      getLast?_cons_of_ne_nil _ (List.cons_ne_nil _ _),
                      getLast?_cons_of_ne_nil _ (List.cons_ne_nil _ _),
                      getLast?_cons_of_ne_nil _ (List.cons_ne_nil _ _),
                      getLast?_cons_of_ne_nil _ (List.cons_ne_nil _ _),
                      getLast?_cons_of_ne_nil _ hne, h1] at hcl
                    simp only [Option.some.injEq, Prod.mk.injEq, and_true] at hcl
                    subst hcl
                    refine ⟨rfl, ?_⟩
                    rw [List.getLast?_append_of_ne_nil _ (List.cons_ne_nil _ _),
                      List.getLast?_cons_cons, List.getLast?_cons_cons,
                      getLast?_cons_of_ne_nil _ hne2]
                    exact h2
                  · intro hcode
                    simp [RegExit.code] at hcode
      · have hrun : regRun env
            = ⟨[(RegCall.loadTrainingData, true), (RegCall.loadTestData, true)],
               [inputDimMismatchMsg env.trainingData.numInputDimensions
                  env.testData.numInputDimensions],
               [], RegExit.inputDimMismatch⟩ := by
          simp [regRun, hl, hlt, hg]
        rw [hrun]
        refine ⟨rfl, ?_, by intro h0; simp [RegExit.code] at h0⟩
        intro c hc
        simp at hc

/-! ### The claims -/

/-- Claim C1: the regression driver is claimed to reject every pair of loaded
datasets whose input dimensions or target dimensions differ, before any
train, test or predict call.  The code does not: its target-dimension guard
(source line 79) compares the test dataset to itself, so a pair with equal
input dimensions but different target dimensions (here 3 vs 2) is accepted
and the driver trains, tests, predicts and exits with EXIT_SUCCESS. -/
theorem c1_mismatched_target_dims_accepted :
    c1Env.trainingData.numInputDimensions = c1Env.testData.numInputDimensions
    ∧ c1Env.trainingData.numTargetDimensions ≠ c1Env.testData.numTargetDimensions
    ∧ (RegCall.train, true) ∈ (regRun c1Env).calls
    ∧ (RegCall.predict 0, true) ∈ (regRun c1Env).calls
    ∧ (regRun c1Env).exit = RegExit.success := by
  refine ⟨rfl, by decide, by decide, by decide, by decide⟩

/-- Claim C2: in both drivers every library call's boolean result is checked
immediately after the call: a call that returned false is always the last
call in the trace, the driver's final console line is that call's diagnostic
and the exit status is EXIT_FAILURE; EXIT_SUCCESS is returned only when every
library call returned true. -/
theorem c2_boolean_results_failfast (envA : ANBCEnv) (envR : RegEnv) :
    ((anbcRun envA).calls.dropLast.all (fun c => c.2) = true
      ∧ (∀ c, (anbcRun envA).calls.getLast? = some (c, false) →
          (anbcRun envA).exit.code = 1
          ∧ (anbcRun envA).console.getLast? = some (anbcFailMsg c))
      ∧ ((anbcRun envA).exit.code = 0 →
          (anbcRun envA).calls.all (fun c => c.2) = true))
    ∧ ((regRun envR).calls.dropLast.all (fun c => c.2) = true
      ∧ (∀ c, (regRun envR).calls.getLast? = some (c, false) →
          (regRun envR).exit.code = 1
          ∧ (regRun envR).console.getLast? = some (regFailMsg c))
      ∧ ((regRun envR).exit.code = 0 →
          (regRun envR).calls.all (fun c => c.2) = true)) :=
  ⟨anbcRun_failfast envA, regRun_failfast envR⟩

/-- Witness for C2 at concrete oracles in which the train call fails: both
drivers exit with failure status and print the train diagnostic last. -/
theorem c2_boolean_results_failfast_witness :
    (anbcRun envTrainFailA).exit.code = 1
    ∧ (anbcRun envTrainFailA).console.getLast?
        = some (anbcFailMsg ANBCCall.train)
    ∧ (regRun envTrainFailR).exit.code = 1
    ∧ (regRun envTrainFailR).console.getLast?
        = some (regFailMsg RegCall.train) := by
  have h := c2_boolean_results_failfast envTrainFailA envTrainFailR
  have hA := h.1.2.1 ANBCCall.train (by decide)
  have hR := h.2.2.1 RegCall.train (by decide)
  exact ⟨hA.1, hA.2, hR.1, hR.2⟩

/-- Claim C3 (spec-modelled): saving a trained model to its file
representation and loading it back yields exactly the original model, and
hence identical predictions on every input vector, both for the ANBC
classifier and for the regression pipeline. -/
theorem c3_save_load_roundtrip (m : ANBCModel) (p : PipelineModel) :
    anbcLoadModelFromFile (anbcSaveModelToFile m) = some m
    ∧ (∀ x, (anbcLoadModelFromFile (anbcSaveModelToFile m)).map
          (fun mm => anbcPredictLabel mm x) = some (anbcPredictLabel m x))
    ∧ loadPipelineFromFile (savePipelineToFile p) = some p
    ∧ (∀ x, (loadPipelineFromFile (savePipelineToFile p)).map
          (fun pp => pipelinePredict pp x) = some (pipelinePredict p x)) := by
  refine ⟨anbcLoad_save m, ?_, pipelineLoad_save p, ?_⟩
  · intro x; rw [anbcLoad_save m, Option.map_some']
  · intro x; rw [pipelineLoad_save p, Option.map_some']

/-- Claim C4 (spec-modelled): partitioning a dataset by X% produces two
datasets whose sample counts sum to the original dataset's count and whose
underlying original-sample index sets are disjoint (and together cover every
original index). -/
theorem c4_partition_counts_disjoint (data : ClassificationData) (pct : Nat) :
    (partition data pct).1.samples.length
        + (partition data pct).2.samples.length = data.samples.length
    ∧ List.Disjoint (partitionTrainIdx data pct) (partitionTestIdx data pct)
    ∧ partitionTrainIdx data pct ++ partitionTestIdx data pct
        = List.range data.samples.length := by
  refine ⟨?_, ?_, ?_⟩
  · simp only [partition, List.length_take, List.length_drop]
    omega
  · exact List.disjoint_take_drop (List.nodup_range _) le_rfl
  · exact List.take_append_drop _ _

/-- Claim C7: neither driver reads its command-line arguments (nor any other
input besides the library oracle), so two runs with identical library
behavior but arbitrary argument vectors have identical observable outcomes. -/
theorem c7_argv_independent (a1 a2 : Nat) (v1 v2 : List String)
    (envA : ANBCEnv) (b1 b2 : Nat) (w1 w2 : List String) (envR : RegEnv) :
    anbcMain a1 v1 envA = anbcMain a2 v2 envA
    ∧ regMain b1 w1 envR = regMain b2 w2 envR :=
  ⟨rfl, rfl⟩

/-- Claim C8: the regression driver's target-dimension guard compares the
test dataset's target-dimension count to itself (source line 79), so the
guard condition is false for every oracle and the guard's error branch is
unreachable: no run ever exits through the target-dimension mismatch exit. -/
theorem c8_target_guard_unreachable (env : RegEnv) :
    decide (env.testData.numTargetDimensions
        ≠ env.testData.numTargetDimensions) = false
    ∧ (regRun env).exit ≠ RegExit.targetDimMismatch := by
  refine ⟨by simp, ?_⟩
  simp only [regRun]
  repeat' split
  all_goals simp_all

/-- Claim C5: when the ANBC driver completes successfully on a nonempty test
dataset, the accuracy it computed equals the number of test samples whose
predicted class label equals their true class label divided by the total
number of test samples, and this ratio lies in the interval [0, 1]. -/
theorem c5_accuracy_in_unit_interval (env : ANBCEnv)
    (hs : (anbcRun env).exit = ANBCExit.success)
    (hn : 0 < (anbcRun env).numTestSamples) :
    ((anbcRun env).numCorrect : ℚ) / ((anbcRun env).numTestSamples : ℚ)
        = (((partition env.trainingData 80).2.samples.enum.countP
             (fun p => decide (p.2.classLabel = env.predictedLabel p.1)) : ℚ))
          / ((anbcRun env).numTestSamples : ℚ)
    ∧ 0 ≤ ((anbcRun env).numCorrect : ℚ) / ((anbcRun env).numTestSamples : ℚ)
    ∧ ((anbcRun env).numCorrect : ℚ) / ((anbcRun env).numTestSamples : ℚ) ≤ 1 := by
  cases hl : env.loadTrainingOk with
  | false => simp [anbcRun, hl] at hs
  | true =>
    cases ht : env.trainOk with
    | false => simp [anbcRun, hl, ht] at hs
    | true =>
      cases hsv : env.saveOk with
      | false => simp [anbcRun, hl, ht, hsv] at hs
      | true =>
        cases hm : env.loadModelOk with
        | false => simp [anbcRun, hl, ht, hsv, hm] at hs
        | true =>
          cases hc : (anbcPredictLoop env 0
              (partition env.trainingData 80).2.samples).correct with
          | none => simp [anbcRun, hl, ht, hsv, hm, hc] at hs
          | some k =>
            have hNC : (anbcRun env).numCorrect = k := by
              simp [anbcRun, hl, ht, hsv, hm, hc]
            have hNS : (anbcRun env).numTestSamples
                = (partition env.trainingData 80).2.samples.length := by
              simp [anbcRun, hl, ht, hsv, hm, hc]
            rw [hNS] at hn
            rw [hNC, hNS]
            have hcount := anbcLoop_count env
              (partition env.trainingData 80).2.samples 0 k hc
            have henum : (partition env.trainingData 80).2.samples.enum
                = List.enumFrom 0 (partition env.trainingData 80).2.samples := rfl
            have hle : k ≤ (partition env.trainingData 80).2.samples.length := by
              rw [hcount]
              calc (List.enumFrom 0
                      (partition env.trainingData 80).2.samples).countP
                      (fun p => decide (p.2.classLabel = env.predictedLabel p.1))
                  ≤ (List.enumFrom 0
                      (partition env.trainingData 80).2.samples).length :=
                    List.countP_le_length _
                _ = (partition env.trainingData 80).2.samples.length := by simp
            have hpos : (0 : ℚ)
                < (((partition env.trainingData 80).2.samples.length : ℚ)) := by
              exact_mod_cast hn
            refine ⟨?_, ?_, ?_⟩
            · rw [henum, ← hcount]
            · positivity
            · rw [div_le_one hpos]
              exact_mod_cast hle

/-- Witness for C5 at a concrete oracle with one test sample predicted
correctly: the accuracy ratio equals the matching-sample count over the
sample count and lies in [0, 1]. -/
theorem c5_accuracy_in_unit_interval_witness :
    ((anbcRun envANBCOneSample).numCorrect : ℚ)
        / ((anbcRun envANBCOneSample).numTestSamples : ℚ)
      = (((partition envANBCOneSample.trainingData 80).2.samples.enum.countP
           (fun p => decide (p.2.classLabel
              = envANBCOneSample.predictedLabel p.1)) : ℚ))
        / ((anbcRun envANBCOneSample).numTestSamples : ℚ)
    ∧ 0 ≤ ((anbcRun envANBCOneSample).numCorrect : ℚ)
        / ((anbcRun envANBCOneSample).numTestSamples : ℚ)
    ∧ ((anbcRun envANBCOneSample).numCorrect : ℚ)
        / ((anbcRun envANBCOneSample).numTestSamples : ℚ) ≤ 1 :=
  c5_accuracy_in_unit_interval envANBCOneSample (by decide) (by decide)

/-- Claim C6: when the regression driver completes successfully, the results
file consists of exactly one endl-terminated line per test sample, in sample
order, each line holding the mapped output vector's components followed by
the target vector's components, every value followed by a tab. -/
theorem c6_results_file_lines (env : RegEnv)
    (hs : (regRun env).exit = RegExit.success) :
    splitOnNl (regRun env).file
        = env.testData.samples.enum.map (regLineFor env)
    ∧ (splitOnNl (regRun env).file).length = env.testData.samples.length := by
  cases hl : env.loadTrainingOk with
  | false => simp [regRun, hl] at hs
  | true =>
    cases hlt : env.loadTestOk with
    | false => simp [regRun, hl, hlt] at hs
    | true =>
      by_cases hg : env.trainingData.numInputDimensions
          = env.testData.numInputDimensions
      · cases htr : env.trainOk with
        | false => simp [regRun, hl, hlt, hg, htr] at hs
        | true =>
          cases hsv : env.savePipelineOk with
          | false => simp [regRun, hl, hlt, hg, htr, hsv] at hs
          | true =>
            cases hlp : env.loadPipelineOk with
            | false => simp [regRun, hl, hlt, hg, htr, hsv, hlp] at hs
            | true =>
              cases hte : env.testOk with
              | false => simp [regRun, hl, hlt, hg, htr, hsv, hlp, hte] at hs
              | true =>
                cases hro : (regPredictLoop env 0 env.testData.samples).ok with
                | false =>
                  simp [regRun, hl, hlt, hg, htr, hsv, hlp, hte, hro] at hs
                | true =>
                  have hfile : (regRun env).file
                      = (regPredictLoop env 0 env.testData.samples).fileToks := by
                    simp [regRun, hl, hlt, hg, htr, hsv, hlp, hte, hro]
                  have h1 : splitOnNl (regRun env).file
                      = env.testData.samples.enum.map (regLineFor env) := by
                    rw [hfile, regLoop_file_ok env env.testData.samples 0 hro]
                    exact splitOnNl_lines env (List.enumFrom 0 env.testData.samples)
                  refine ⟨h1, ?_⟩
                  rw [h1, List.length_map]
                  simp
      · simp [regRun, hl, hlt, hg] at hs

/-- Witness for C6 at a concrete oracle with one test sample: the results
file splits into exactly the one expected line. -/
theorem c6_results_file_lines_witness :
    splitOnNl (regRun envRegOneSample).file
        = envRegOneSample.testData.samples.enum.map (regLineFor envRegOneSample)
    ∧ (splitOnNl (regRun envRegOneSample).file).length
        = envRegOneSample.testData.samples.length :=
  c6_results_file_lines envRegOneSample (by decide)

/-- Claim C9: when the test dataset produced by the partition is empty and
the load, train, save and reload calls all succeed, the ANBC driver's
prediction loop executes zero times (no predict call appears in the trace)
and the final accuracy expression divides zero by zero: both the correct
count (numerator) and the test-sample count used as divisor are zero, with no
zero-guard before the division. -/
theorem c9_empty_test_divzero (env : ANBCEnv)
    (h1 : env.loadTrainingOk = true) (h2 : env.trainOk = true)
    (h3 : env.saveOk = true) (h4 : env.loadModelOk = true)
    (he : (partition env.trainingData 80).2.samples = []) :
    (anbcRun env).calls.countP (fun c => ANBCCall.isPredict c.1) = 0
    ∧ (anbcRun env).numTestSamples = 0
    ∧ (anbcRun env).numCorrect = 0
    ∧ (anbcRun env).console.getLast? = some (accuracyMsg 0 0)
    ∧ (anbcRun env).exit = ANBCExit.success := by
  have hrun : anbcRun env
      = ⟨[(ANBCCall.loadTrainingData, true), (ANBCCall.train, true),
          (ANBCCall.saveModel, true), (ANBCCall.loadModel, true)],
         [accuracyMsg 0 0], 0, 0, ANBCExit.success⟩ := by
    simp [anbcRun, h1, h2, h3, h4, he, anbcPredictLoop]
  rw [hrun]
  exact ⟨by decide, rfl, rfl, rfl, rfl⟩

/-- Witness for C9 at a concrete oracle whose training dataset is empty, so
the partitioned test dataset is empty as well. -/
theorem c9_empty_test_divzero_witness :
    (anbcRun envANBCEmpty).calls.countP (fun c => ANBCCall.isPredict c.1) = 0
    ∧ (anbcRun envANBCEmpty).numTestSamples = 0
    ∧ (anbcRun envANBCEmpty).numCorrect = 0
    ∧ (anbcRun envANBCEmpty).console.getLast? = some (accuracyMsg 0 0)
    ∧ (anbcRun envANBCEmpty).exit = ANBCExit.success :=
  c9_empty_test_divzero envANBCEmpty rfl rfl rfl rfl (by decide)

theorem regRun_file_cases (env : RegEnv) :
    (regRun env).file = []
    ∨ (regRun env).file = (regPredictLoop env 0 env.testData.samples).fileToks := by
  simp only [regRun]
  repeat' split
  all_goals simp

/-- Claim C10: in the regression driver's results file every value token is
immediately followed by a tab token, and every nonempty line ends with a
trailing tab immediately before its endl terminator. -/
theorem c10_trailing_tab (env : RegEnv) :
    (∀ pre v post, (regRun env).file = pre ++ FileTok.val v :: post →
        post.head? = some FileTok.tab)
    ∧ ∀ l ∈ splitOnNl (regRun env).file, l ≠ [] →
        l.getLast? = some FileTok.tab := by
  rcases regRun_file_cases env with hf | hf
  · rw [hf]
    refine ⟨?_, ?_⟩
    · intro pre v post he
      exact absurd he.symm (List.append_ne_nil_of_right_ne_nil pre (by simp))
    · intro l hl
      simp [splitOnNl] at hl
  · rw [hf]
    exact ⟨valsTabbedOk_spec (regLoop_file_tabbed env env.testData.samples 0),
      regLoop_lines_tab env env.testData.samples 0⟩

/-- Witness for C10 at a concrete oracle with one test sample (output vector
`[2]`, target vector `[1]`): the value at the head of the file is followed by
a tab, and the single line ends with a tab. -/
theorem c10_trailing_tab_witness :
    ([FileTok.tab, FileTok.val 1, FileTok.tab, FileTok.nl]
        : List FileTok).head? = some FileTok.tab
    ∧ ([FileTok.val 2, FileTok.tab, FileTok.val 1, FileTok.tab]
        : List FileTok).getLast? = some FileTok.tab :=
  ⟨(c10_trailing_tab envRegOneSample).1 [] 2
      [FileTok.tab, FileTok.val 1, FileTok.tab, FileTok.nl] (by decide),
   (c10_trailing_tab envRegOneSample).2
      [FileTok.val 2, FileTok.tab, FileTok.val 1, FileTok.tab] (by decide)
      (by decide)⟩
